import Mathlib

/-!
Shallow embedding of src/src/scene/text/TextStyle.ts (pixijs).

Modelling conventions:
- JS numbers are modelled as exact rationals; where NaN can arise
  (parseInt failure, arithmetic on undefined) the type is Option Rat with
  none standing for NaN.  IEEE rounding is not modelled; no settled claim
  depends on it (the spec ratios 0 and 1/2 and all defaults are exact).
- JS null and undefined are distinguished where the code distinguishes
  them: the retained raw fill and stroke are Option FillInput where none
  is the uninitialized (undefined) field and FillInput.nullv is null.
- Strict equality on fill inputs is modelled structurally; object
  identity is approximated by structural equality (two structurally
  equal objects compare equal here while JS compares references).  NaN
  is not representable inside FillInput, so this approximation is exact
  on everything a claim exercises.
- Event emission is modelled by returning, next to the new state, the
  list of payloads passed to emit, each payload being the state of the
  instance at the moment of the emit call.
- The collaborators that are not part of the excerpt
  (generateTextStyleKey, convertFillInputToFillStyle, FillGradient,
  Color, GraphicsContext default paint templates, EventEmitter) are
  modelled from the spec; each such definition carries a doc comment
  starting with: Modelled from the spec.
-/

inductive TextStyleAlign
  | left | center | right | justify
deriving DecidableEq, Fintype

inductive TextStyleFontStyle
  | normal | italic | oblique
deriving DecidableEq, Fintype

inductive TextStyleFontVariant
  | normal | smallCaps
deriving DecidableEq, Fintype

inductive TextStyleFontWeight
  | normal | bold | bolder | lighter
  | w100 | w200 | w300 | w400 | w500 | w600 | w700 | w800 | w900
deriving DecidableEq, Fintype

inductive TextStyleTextBaseline
  | alphabetic | top | hanging | middle | ideographic | bottom
deriving DecidableEq, Fintype

inductive TextStyleWhiteSpace
  | normal | pre | preLine
deriving DecidableEq, Fintype

/-- A color source: a CSS color string or a numeric color. -/
inductive ColorSource
  | str (s : String)
  | num (q : ℚ)
deriving DecidableEq

/-- The TextDropShadow record of TextStyle.ts (alpha, angle, blur, color, distance). -/
structure TextDropShadow where
  alpha : ℚ
  angle : ℚ
  blur : ℚ
  color : ColorSource
  distance : ℚ
deriving DecidableEq

/-- A drop-shadow record with every field optional, as accepted by the
dropShadow setter and by the constructor options. -/
structure PartialDropShadow where
  alpha : Option ℚ := none
  angle : Option ℚ := none
  blur : Option ℚ := none
  color : Option ColorSource := none
  distance : Option ℚ := none
deriving DecidableEq

/-- The value shapes assignable to the dropShadow property:
null, a boolean, or a record of optional fields. -/
inductive DropShadowInput
  | nullIn
  | boolIn (b : Bool)
  | objIn (p : PartialDropShadow)
deriving DecidableEq

/-- Modelled from the spec: a texture resource owned by a paint
descriptor, identified by a numeric id; destruction of textures is
recorded as an effect (id, destroyTextureSource) rather than by
mutating shared state. -/
structure Texture where
  uid : Nat
deriving DecidableEq

/-- Modelled from the spec: FillGradient (scene/graphics, not in the
excerpt).  It records the constructor geometry and the ordered list of
color stops (position, numeric color) added by addColorStop.  The
fourth coordinate is Option Rat because the legacy conversion computes
it from a possibly undefined fontSize (NaN is none). -/
structure FillGradient where
  x0 : Option ℚ
  y0 : Option ℚ
  x1 : Option ℚ
  y1 : Option ℚ
  colorStops : List (ℚ × ℚ)
deriving DecidableEq

/-- Modelled from the spec: FillGradient.addColorStop appends one
(position, color) stop. -/
def FillGradient.addColorStop (g : FillGradient) (pos : ℚ) (colorNum : ℚ) : FillGradient :=
  { g with colorStops := g.colorStops ++ [(pos, colorNum)] }

/-- A fill-style record with optional fields, the object shape of a raw
fill or stroke input such as the {fill: gradient} or {color, width}
objects built by convertV7Tov8Style. -/
structure FillStyleRec where
  color : Option ColorSource := none
  alpha : Option ℚ := none
  texture : Option Texture := none
  fill : Option FillGradient := none
  width : Option ℚ := none
deriving DecidableEq

/-- Modelled from the spec: the canonical paint descriptor
(ConvertedFillStyle and ConvertedStrokeStyle of GraphicsContext): a
resolved color, alpha, optional texture, optional gradient and a stroke
width. -/
structure ConvertedFillStyle where
  color : ColorSource
  alpha : ℚ
  texture : Option Texture
  fill : Option FillGradient
  width : ℚ
deriving DecidableEq

/-- The raw fill and stroke inputs (FillStyleInputs): null, a color
string, a numeric color, a legacy color array, a gradient object, or an
already built fill-style record. -/
inductive FillInput
  | nullv
  | str (s : String)
  | num (q : ℚ)
  | strList (l : List String)
  | numList (l : List ℚ)
  | gradient (g : FillGradient)
  | styleObj (r : FillStyleRec)
deriving DecidableEq

/-- The fontSize setter accepts a string or a number; the number slot is
Option Rat so that a NaN produced elsewhere can flow through unchanged. -/
inductive FontSizeInput
  | str (s : String)
  | num (q : Option ℚ)
deriving DecidableEq

/-- The fontFamily property: a single name or a list of names. -/
abbrev FontFamilyInput := String ⊕ List String

/-- Constructor options of TextStyle, every documented field optional
(none is an absent key), plus the recognized legacy (v7) fields read by
convertV7Tov8Style. -/
structure TextStyleOptions where
  align : Option TextStyleAlign := none
  breakWords : Option Bool := none
  dropShadow : Option DropShadowInput := none
  fill : Option FillInput := none
  fontFamily : Option FontFamilyInput := none
  fontSize : Option FontSizeInput := none
  fontStyle : Option TextStyleFontStyle := none
  fontVariant : Option TextStyleFontVariant := none
  fontWeight : Option TextStyleFontWeight := none
  leading : Option ℚ := none
  letterSpacing : Option ℚ := none
  lineHeight : Option ℚ := none
  padding : Option ℚ := none
  stroke : Option FillInput := none
  textBaseline : Option TextStyleTextBaseline := none
  trim : Option Bool := none
  whiteSpace : Option TextStyleWhiteSpace := none
  wordWrap : Option Bool := none
  wordWrapWidth : Option ℚ := none
  dropShadowAlpha : Option ℚ := none
  dropShadowAngle : Option ℚ := none
  dropShadowBlur : Option ℚ := none
  dropShadowColor : Option ColorSource := none
  dropShadowDistance : Option ℚ := none
  strokeThickness : Option ℚ := none
  fillGradientStops : Option (List ℚ) := none
deriving DecidableEq

/-- The state of a TextStyle instance: the private fields of the class,
plus an observer count standing for the EventEmitter listener list
(removeAllListeners empties it). -/
structure TextStyle where
  _fill : Option ConvertedFillStyle
  _originalFill : Option FillInput
  _stroke : Option ConvertedFillStyle
  _originalStroke : Option FillInput
  _dropShadow : Option TextDropShadow
  _fontFamily : FontFamilyInput
  _fontSize : Option ℚ
  _fontStyle : TextStyleFontStyle
  _fontVariant : TextStyleFontVariant
  _fontWeight : TextStyleFontWeight
  _breakWords : Bool
  _align : TextStyleAlign
  _leading : ℚ
  _letterSpacing : ℚ
  _lineHeight : ℚ
  _textBaseline : TextStyleTextBaseline
  _whiteSpace : TextStyleWhiteSpace
  _wordWrap : Bool
  _wordWrapWidth : ℚ
  _padding : ℚ
  _styleKey : Option String
  _trim : Bool
  listeners : Nat
deriving DecidableEq

/-- The exact rational value of the IEEE double Math.PI. -/
def mathPI : ℚ := (884279719003555 : ℚ) / 281474976710656

/-- The value Math.PI / 6, written as the explicit reduced fraction so
that it reduces inside the kernel (rational division does not); the
theorem piOver6_eq below checks it against mathPI / 6. -/
def piOver6 : ℚ := ⟨884279719003555, 1688849860263936, by norm_num, by norm_num⟩

/-- TextStyle.defaultDropShadow from the source. -/
def TextStyle.defaultDropShadow : TextDropShadow :=
  { alpha := 1
    angle := piOver6
    blur := 0
    color := .str "black"
    distance := 5 }

/-- The plain property values of TextStyle.defaultTextStyle, in the
declaration order of the source literal. -/
structure StyleValues where
  align : TextStyleAlign
  breakWords : Bool
  dropShadow : DropShadowInput
  fill : FillInput
  fontFamily : FontFamilyInput
  fontSize : FontSizeInput
  fontStyle : TextStyleFontStyle
  fontVariant : TextStyleFontVariant
  fontWeight : TextStyleFontWeight
  leading : ℚ
  letterSpacing : ℚ
  lineHeight : ℚ
  padding : ℚ
  stroke : FillInput
  textBaseline : TextStyleTextBaseline
  trim : Bool
  whiteSpace : TextStyleWhiteSpace
  wordWrap : Bool
  wordWrapWidth : ℚ
deriving DecidableEq

/-- TextStyle.defaultTextStyle from the source. -/
def TextStyle.defaultTextStyle : StyleValues :=
  { align := .left
    breakWords := false
    dropShadow := .nullIn
    fill := .str "black"
    fontFamily := .inl "Arial"
    fontSize := .num (some 26)
    fontStyle := .normal
    fontVariant := .normal
    fontWeight := .normal
    leading := 0
    letterSpacing := 0
    lineHeight := 0
    padding := 0
    stroke := .nullv
    textBaseline := .alphabetic
    trim := false
    whiteSpace := .pre
    wordWrap := false
    wordWrapWidth := 100 }

/-- Overlay of a partial options record onto the defaults, one field at
a time, mirroring the object spread in the constructor. -/
def mergeWithDefaults (o : TextStyleOptions) : StyleValues :=
  let d := TextStyle.defaultTextStyle
  { align := o.align.getD d.align
    breakWords := o.breakWords.getD d.breakWords
    dropShadow := o.dropShadow.getD d.dropShadow
    fill := o.fill.getD d.fill
    fontFamily := o.fontFamily.getD d.fontFamily
    fontSize := o.fontSize.getD d.fontSize
    fontStyle := o.fontStyle.getD d.fontStyle
    fontVariant := o.fontVariant.getD d.fontVariant
    fontWeight := o.fontWeight.getD d.fontWeight
    leading := o.leading.getD d.leading
    letterSpacing := o.letterSpacing.getD d.letterSpacing
    lineHeight := o.lineHeight.getD d.lineHeight
    padding := o.padding.getD d.padding
    stroke := o.stroke.getD d.stroke
    textBaseline := o.textBaseline.getD d.textBaseline
    trim := o.trim.getD d.trim
    whiteSpace := o.whiteSpace.getD d.whiteSpace
    wordWrap := o.wordWrap.getD d.wordWrap
    wordWrapWidth := o.wordWrapWidth.getD d.wordWrapWidth }

/-- Modelled from the spec: the paint templates
GraphicsContext.defaultFillStyle (a default paint template consumed by
the converter; its concrete contents are not observable by any claim). -/
def GraphicsContext.defaultFillStyle : ConvertedFillStyle :=
  { color := .num 16777215
    alpha := 1
    texture := none
    fill := none
    width := 0 }

/-- Modelled from the spec: the stroke paint template
GraphicsContext.defaultStrokeStyle. -/
def GraphicsContext.defaultStrokeStyle : ConvertedFillStyle :=
  { color := .num 16777215
    alpha := 1
    texture := none
    fill := none
    width := 1 }

/-- Modelled from the spec: the Color collaborator turning a color
source into its numeric value; numeric inputs pass through unchanged
and a few named strings are resolved, anything else maps to 0. -/
def colorStringToNumber (s : String) : ℚ :=
  if s = "black" then 0
  else if s = "white" then 16777215
  else if s = "red" then 16711680
  else 0

/-- Modelled from the spec: convertFillInputToFillStyle, the
paint-input-to-descriptor converter.  A null input yields a null
descriptor; a color string or numeric color fills the color slot of the
default template; a gradient fills the gradient slot; an already built
record is overlaid onto the template field by field; a legacy color
array becomes an implicit gradient with stops spaced at index divided
by length. -/
def convertFillInputToFillStyle (value : FillInput) (template : ConvertedFillStyle) :
    Option ConvertedFillStyle :=
  match value with
  | .nullv => none
  | .str s => some { template with color := .str s }
  | .num q => some { template with color := .num q }
  | .gradient g => some { template with fill := some g }
  | .styleObj r =>
      some { color := r.color.getD template.color
             alpha := r.alpha.getD template.alpha
             texture := match r.texture with | some t => some t | none => template.texture
             fill := match r.fill with | some g => some g | none => template.fill
             width := r.width.getD template.width }
  | .strList l =>
      let fills := l.map colorStringToNumber
      let g : FillGradient :=
        { x0 := some 0, y0 := some 0, x1 := some 0, y1 := some 0
          colorStops := fills.enum.map (fun p => (mkRat p.1 fills.length, p.2)) }
      some { template with fill := some g }
  | .numList l =>
      let g : FillGradient :=
        { x0 := some 0, y0 := some 0, x1 := some 0, y1 := some 0
          colorStops := l.enum.map (fun p => (mkRat p.1 l.length, p.2)) }
      some { template with fill := some g }

/-- The converted descriptor the fill setter stores for a given raw
input: 0x0 is converted as the string black, everything else as given. -/
def fillConvValue (value : FillInput) : Option ConvertedFillStyle :=
  convertFillInputToFillStyle (if value = .num 0 then .str "black" else value)
    GraphicsContext.defaultFillStyle

/-- The converted descriptor the stroke setter stores for a given raw
input. -/
def strokeConvValue (value : FillInput) : Option ConvertedFillStyle :=
  convertFillInputToFillStyle value GraphicsContext.defaultStrokeStyle

/-- The ECMAScript WhiteSpace and LineTerminator characters trimmed by
parseInt: tab, LF, VT, FF, CR, space, NBSP, the Unicode space
separators (Zs), LS, PS, and the zero width no-break space. -/
def isJsWhitespace (c : Char) : Bool :=
  let n := c.toNat
  n = 0x09 || n = 0x0A || n = 0x0B || n = 0x0C || n = 0x0D || n = 0x20 ||
  n = 0xA0 || n = 0x1680 || (0x2000 ≤ n && n ≤ 0x200A) ||
  n = 0x2028 || n = 0x2029 || n = 0x202F || n = 0x205F || n = 0x3000 || n = 0xFEFF

/-- JS parseInt with radix 10: skip leading whitespace, read an
optional sign, then the maximal leading run of decimal digits; none
(NaN) when that run is empty. -/
def jsParseInt10 (s : String) : Option ℚ :=
  let cs := s.data.dropWhile isJsWhitespace
  let signed : Bool × List Char :=
    match cs with
    | '-' :: t => (true, t)
    | '+' :: t => (false, t)
    | _ => (false, cs)
  let ds := signed.2.takeWhile Char.isDigit
  if ds = [] then none
  else
    let n : Nat := ds.foldl (fun acc c => acc * 10 + (c.toNat - 48)) 0
    some (if signed.1 then -(n : ℚ) else (n : ℚ))

/-- The drop-shadow value computed by the dropShadow setter for a given
input: a record input is overlaid onto defaultDropShadow, true becomes
a copy of defaultDropShadow, false and null become null. -/
def dropShadowValueOf (value : DropShadowInput) : Option TextDropShadow :=
  match value with
  | .objIn p =>
      some { alpha := p.alpha.getD TextStyle.defaultDropShadow.alpha
             angle := p.angle.getD TextStyle.defaultDropShadow.angle
             blur := p.blur.getD TextStyle.defaultDropShadow.blur
             color := p.color.getD TextStyle.defaultDropShadow.color
             distance := p.distance.getD TextStyle.defaultDropShadow.distance }
  | .boolIn true => some TextStyle.defaultDropShadow
  | .boolIn false => none
  | .nullIn => none

/-- The number stored by the fontSize setter: strings go through
parseInt, numbers are stored as given. -/
def fontSizeValueOf (value : FontSizeInput) : Option ℚ :=
  match value with
  | .str s => jsParseInt10 s
  | .num q => q

/-- A setter result: the new state together with the payloads emitted
to observers during the call. -/
abbrev SetterResult := TextStyle × List TextStyle

/-- TextStyle.update: null the cached key and emit one update event
whose payload is the instance itself. -/
def TextStyle.update (st : TextStyle) : SetterResult :=
  let st2 := { st with _styleKey := none }
  (st2, [st2])

def TextStyle.setAlign (value : TextStyleAlign) (st : TextStyle) : SetterResult :=
  TextStyle.update { st with _align := value }

def TextStyle.setBreakWords (value : Bool) (st : TextStyle) : SetterResult :=
  TextStyle.update { st with _breakWords := value }

def TextStyle.setDropShadow (value : DropShadowInput) (st : TextStyle) : SetterResult :=
  TextStyle.update { st with _dropShadow := dropShadowValueOf value }

def TextStyle.setFontFamily (value : FontFamilyInput) (st : TextStyle) : SetterResult :=
  TextStyle.update { st with _fontFamily := value }

def TextStyle.setFontSize (value : FontSizeInput) (st : TextStyle) : SetterResult :=
  TextStyle.update { st with _fontSize := fontSizeValueOf value }

def TextStyle.setFontStyle (value : TextStyleFontStyle) (st : TextStyle) : SetterResult :=
  TextStyle.update { st with _fontStyle := value }

def TextStyle.setFontVariant (value : TextStyleFontVariant) (st : TextStyle) : SetterResult :=
  TextStyle.update { st with _fontVariant := value }

def TextStyle.setFontWeight (value : TextStyleFontWeight) (st : TextStyle) : SetterResult :=
  TextStyle.update { st with _fontWeight := value }

def TextStyle.setLeading (value : ℚ) (st : TextStyle) : SetterResult :=
  TextStyle.update { st with _leading := value }

def TextStyle.setLetterSpacing (value : ℚ) (st : TextStyle) : SetterResult :=
  TextStyle.update { st with _letterSpacing := value }

def TextStyle.setLineHeight (value : ℚ) (st : TextStyle) : SetterResult :=
  TextStyle.update { st with _lineHeight := value }

def TextStyle.setPadding (value : ℚ) (st : TextStyle) : SetterResult :=
  TextStyle.update { st with _padding := value }

def TextStyle.setTrim (value : Bool) (st : TextStyle) : SetterResult :=
  TextStyle.update { st with _trim := value }

def TextStyle.setTextBaseline (value : TextStyleTextBaseline) (st : TextStyle) : SetterResult :=
  TextStyle.update { st with _textBaseline := value }

def TextStyle.setWhiteSpace (value : TextStyleWhiteSpace) (st : TextStyle) : SetterResult :=
  TextStyle.update { st with _whiteSpace := value }

def TextStyle.setWordWrap (value : Bool) (st : TextStyle) : SetterResult :=
  TextStyle.update { st with _wordWrap := value }

def TextStyle.setWordWrapWidth (value : ℚ) (st : TextStyle) : SetterResult :=
  TextStyle.update { st with _wordWrapWidth := value }

/-- The fill setter: skip entirely when the value strictly equals the
retained raw value, otherwise retain the raw value, convert it (0x0 is
converted as the string black) and update. -/
def TextStyle.setFill (value : FillInput) (st : TextStyle) : SetterResult :=
  if st._originalFill = some value then (st, [])
  else
    TextStyle.update
      { st with _originalFill := some value, _fill := fillConvValue value }

/-- The stroke setter: skip when the value strictly equals the retained
raw value, otherwise retain, convert and update. -/
def TextStyle.setStroke (value : FillInput) (st : TextStyle) : SetterResult :=
  if st._originalStroke = some value then (st, [])
  else
    TextStyle.update
      { st with _originalStroke := some value, _stroke := strokeConvValue value }

/-- Assign every property of a full value set through its setter, in
the key order of the defaultTextStyle literal, collecting the emitted
payloads. -/
def applyStyleValues (v : StyleValues) (st : TextStyle) : SetterResult :=
  let r1 := TextStyle.setAlign v.align st
  let r2 := TextStyle.setBreakWords v.breakWords r1.1
  let r3 := TextStyle.setDropShadow v.dropShadow r2.1
  let r4 := TextStyle.setFill v.fill r3.1
  let r5 := TextStyle.setFontFamily v.fontFamily r4.1
  let r6 := TextStyle.setFontSize v.fontSize r5.1
  let r7 := TextStyle.setFontStyle v.fontStyle r6.1
  let r8 := TextStyle.setFontVariant v.fontVariant r7.1
  let r9 := TextStyle.setFontWeight v.fontWeight r8.1
  let r10 := TextStyle.setLeading v.leading r9.1
  let r11 := TextStyle.setLetterSpacing v.letterSpacing r10.1
  let r12 := TextStyle.setLineHeight v.lineHeight r11.1
  let r13 := TextStyle.setPadding v.padding r12.1
  let r14 := TextStyle.setStroke v.stroke r13.1
  let r15 := TextStyle.setTextBaseline v.textBaseline r14.1
  let r16 := TextStyle.setTrim v.trim r15.1
  let r17 := TextStyle.setWhiteSpace v.whiteSpace r16.1
  let r18 := TextStyle.setWordWrap v.wordWrap r17.1
  let r19 := TextStyle.setWordWrapWidth v.wordWrapWidth r18.1
  (r19.1, r1.2 ++ r2.2 ++ r3.2 ++ r4.2 ++ r5.2 ++ r6.2 ++ r7.2 ++ r8.2 ++ r9.2 ++
    r10.2 ++ r11.2 ++ r12.2 ++ r13.2 ++ r14.2 ++ r15.2 ++ r16.2 ++ r17.2 ++ r18.2 ++ r19.2)

/-- TextStyle.reset: reassign every property to its default through the
setters; no trailing update call. -/
def TextStyle.reset (st : TextStyle) : SetterResult :=
  applyStyleValues TextStyle.defaultTextStyle st

/-- Legacy stop positions: stops[index] when present, otherwise index
divided by the stop count; indexing an absent (undefined) stop array is
a TypeError. -/
def legacyGradientStops (stops : Option (List ℚ)) (total : Nat) :
    List (Nat × ℚ) → FillGradient → Except String FillGradient
  | [], g => .ok g
  | (i, c) :: rest, g =>
      match stops with
      | none => .error "TypeError: cannot read property of undefined fillGradientStops"
      | some l =>
          legacyGradientStops stops total rest
            (g.addColorStop ((l.get? i).getD (mkRat i total)) c)

/-- convertV7Tov8Style from the source: normalize a boolean dropShadow
flag with its sibling scalar fields into a full record, fold a truthy
strokeThickness into a stroke record, and turn an array fill into a
gradient fill object.  The Except layer records the TypeError thrown
when an array fill is given without a fillGradientStops array. -/
def convertV7Tov8Style (style : TextStyleOptions) : Except String TextStyleOptions :=
  let s1 :=
    match style.dropShadow with
    | some (.boolIn true) =>
        { style with dropShadow := some (.objIn
            { alpha := some (style.dropShadowAlpha.getD TextStyle.defaultDropShadow.alpha)
              angle := some (style.dropShadowAngle.getD TextStyle.defaultDropShadow.angle)
              blur := some (style.dropShadowBlur.getD TextStyle.defaultDropShadow.blur)
              color := some (style.dropShadowColor.getD TextStyle.defaultDropShadow.color)
              distance := some (style.dropShadowDistance.getD TextStyle.defaultDropShadow.distance) }) }
    | _ => style
  let s2 :=
    match s1.strokeThickness with
    | some t =>
        if t = 0 then s1
        else
          { s1 with stroke := some (.styleObj
              { color :=
                  match s1.stroke with
                  | some (.str c) => some (.str c)
                  | some (.num q) => some (.num q)
                  | _ => none
                width := some t }) }
    | none => s1
  match s2.fill with
  | some (.strList l) =>
      let fills := l.map colorStringToNumber
      match legacyGradientStops s2.fillGradientStops fills.length fills.enum
        { x0 := some 0, y0 := some 0, x1 := some 0
          y1 := (match s2.fontSize with
                 | some (.num (some q)) => some (q * ((17 : ℚ) / 10))
                 | _ => none)
          colorStops := [] } with
      | .error e => .error e
      | .ok g => .ok { s2 with fill := some (.styleObj { fill := some g }) }
  | some (.numList l) =>
      match legacyGradientStops s2.fillGradientStops l.length l.enum
        { x0 := some 0, y0 := some 0, x1 := some 0
          y1 := (match s2.fontSize with
                 | some (.num (some q)) => some (q * ((17 : ℚ) / 10))
                 | _ => none)
          colorStops := [] } with
      | .error e => .error e
      | .ok g => .ok { s2 with fill := some (.styleObj { fill := some g }) }
  | _ => .ok s2

/-- The field values of a freshly allocated instance before the
constructor assignment loop runs; the non optional fields hold
placeholder values that the loop always overwrites before any read. -/
def initTextStyle : TextStyle :=
  { _fill := none
    _originalFill := none
    _stroke := none
    _originalStroke := none
    _dropShadow := none
    _fontFamily := .inl ""
    _fontSize := none
    _fontStyle := .normal
    _fontVariant := .normal
    _fontWeight := .normal
    _breakWords := false
    _align := .left
    _leading := 0
    _letterSpacing := 0
    _lineHeight := 0
    _textBaseline := .alphabetic
    _whiteSpace := .normal
    _wordWrap := false
    _wordWrapWidth := 0
    _padding := 0
    _styleKey := none
    _trim := false
    listeners := 0 }

/-- The TextStyle constructor: run the legacy conversion, overlay the
options onto the defaults, assign every resulting property through its
setter, then call update.  Leftover legacy keys of the options object
are assigned to plain fields without setters in the source and are
observationally inert, so they are dropped here. -/
def mkTextStyle (opts : TextStyleOptions) : Except String SetterResult :=
  match convertV7Tov8Style opts with
  | .error e => .error e
  | .ok o2 =>
      let r := applyStyleValues (mergeWithDefaults o2) initTextStyle
      let u := TextStyle.update r.1
      .ok (u.1, r.2 ++ u.2)

/-- Length-prefixed concatenation of two code lists; the prefix makes
the combination uniquely decodable. -/
def comb2 (a b : List Nat) : List Nat := a.length :: (a ++ b)

/-- Uniquely decodable code for a list, one tag per cons cell. -/
def encListN (f : α → List Nat) : List α → List Nat
  | [] => [0]
  | a :: t => 1 :: comb2 (f a) (encListN f t)

def natEncBool : Bool → List Nat
  | true => [1]
  | false => [0]

def natEncRat (q : ℚ) : List Nat :=
  [if q.num < 0 then 1 else 0, q.num.natAbs, q.den]

def natEncJSNum : Option ℚ → List Nat
  | none => [0]
  | some q => 1 :: natEncRat q

def natEncStr (s : String) : List Nat :=
  encListN (fun c => [c.toNat]) s.data

def natEncColor : ColorSource → List Nat
  | .str s => 0 :: natEncStr s
  | .num q => 1 :: natEncRat q

def natEncFontFamily : FontFamilyInput → List Nat
  | .inl s => 0 :: natEncStr s
  | .inr l => 1 :: encListN natEncStr l

def natEncDropShadow (ds : TextDropShadow) : List Nat :=
  comb2 (natEncRat ds.alpha) (comb2 (natEncRat ds.angle)
    (comb2 (natEncRat ds.blur) (comb2 (natEncColor ds.color) (natEncRat ds.distance))))

def natEncOptDS : Option TextDropShadow → List Nat
  | none => [0]
  | some ds => 1 :: natEncDropShadow ds

def natEncTex : Option Texture → List Nat
  | none => [0]
  | some t => [1, t.uid]

def natEncGradient (g : FillGradient) : List Nat :=
  comb2 (natEncJSNum g.x0) (comb2 (natEncJSNum g.y0) (comb2 (natEncJSNum g.x1)
    (comb2 (natEncJSNum g.y1)
      (encListN (fun p => comb2 (natEncRat p.1) (natEncRat p.2)) g.colorStops))))

def natEncOptGrad : Option FillGradient → List Nat
  | none => [0]
  | some g => 1 :: natEncGradient g

def natEncConverted (c : ConvertedFillStyle) : List Nat :=
  comb2 (natEncColor c.color) (comb2 (natEncRat c.alpha)
    (comb2 (natEncTex c.texture) (comb2 (natEncOptGrad c.fill) (natEncRat c.width))))

def natEncOptConv : Option ConvertedFillStyle → List Nat
  | none => [0]
  | some c => 1 :: natEncConverted c

def alignToNat : TextStyleAlign → Nat
  | .left => 0
  | .center => 1
  | .right => 2
  | .justify => 3

def fontStyleToNat : TextStyleFontStyle → Nat
  | .normal => 0
  | .italic => 1
  | .oblique => 2

def fontVariantToNat : TextStyleFontVariant → Nat
  | .normal => 0
  | .smallCaps => 1

def fontWeightToNat : TextStyleFontWeight → Nat
  | .normal => 0
  | .bold => 1
  | .bolder => 2
  | .lighter => 3
  | .w100 => 4
  | .w200 => 5
  | .w300 => 6
  | .w400 => 7
  | .w500 => 8
  | .w600 => 9
  | .w700 => 10
  | .w800 => 11
  | .w900 => 12

def textBaselineToNat : TextStyleTextBaseline → Nat
  | .alphabetic => 0
  | .top => 1
  | .hanging => 2
  | .middle => 3
  | .ideographic => 4
  | .bottom => 5

def whiteSpaceToNat : TextStyleWhiteSpace → Nat
  | .normal => 0
  | .pre => 1
  | .preLine => 2

/-- The tuple code of the full property set of a style, one component
per public property in fixed alphabetical order, fill and stroke
contributing their converted paint descriptors (the property values of
the specification data model). -/
def natEncAll (st : TextStyle) : List Nat :=
  comb2 [alignToNat st._align] (comb2 (natEncBool st._breakWords)
    (comb2 (natEncOptDS st._dropShadow) (comb2 (natEncOptConv st._fill)
      (comb2 (natEncFontFamily st._fontFamily) (comb2 (natEncJSNum st._fontSize)
        (comb2 [fontStyleToNat st._fontStyle] (comb2 [fontVariantToNat st._fontVariant]
          (comb2 [fontWeightToNat st._fontWeight] (comb2 (natEncRat st._leading)
            (comb2 (natEncRat st._letterSpacing) (comb2 (natEncRat st._lineHeight)
              (comb2 (natEncRat st._padding) (comb2 (natEncOptConv st._stroke)
                (comb2 [textBaselineToNat st._textBaseline] (comb2 (natEncBool st._trim)
                  (comb2 [whiteSpaceToNat st._whiteSpace]
                    (comb2 (natEncBool st._wordWrap)
                      (natEncRat st._wordWrapWidth))))))))))))))))))

def digitToChar : Nat → Char
  | 0 => '0'
  | 1 => '1'
  | 2 => '2'
  | 3 => '3'
  | 4 => '4'
  | 5 => '5'
  | 6 => '6'
  | 7 => '7'
  | 8 => '8'
  | 9 => '9'
  | _ => 'x'

/-- Decimal digit characters of a natural number (empty for zero). -/
def encNatPos (n : Nat) : List Char :=
  (Nat.digits 10 n).map digitToChar

/-- Render a code list as characters, each number terminated by a
comma. -/
def sepEncNats : List Nat → List Char
  | [] => []
  | n :: t => encNatPos n ++ ',' :: sepEncNats t

/-- Modelled from the spec: generateTextStyleKey
(scene/text/utils, not in the excerpt).  Per the spec the derived key
is a stable concatenation of the current value of every property in a
fixed canonical order, such that identical property values give
identical keys and differing values give differing keys; the concrete
character encoding here is chosen injective to realize exactly that
contract. -/
def generateTextStyleKey (st : TextStyle) : String :=
  String.mk (sepEncNats (natEncAll st))

/-- TextStyle._generateKey: compute the key and cache it. -/
def TextStyle._generateKey (st : TextStyle) : String × TextStyle :=
  let k := generateTextStyleKey st
  (k, { st with _styleKey := some k })

/-- The styleKey getter: return the cached key when it is truthy,
otherwise generate and cache it. -/
def TextStyle.styleKey (st : TextStyle) : String × TextStyle :=
  match st._styleKey with
  | some k => if k = "" then st._generateKey else (k, st)
  | none => st._generateKey

/-- The drop-shadow record read back by the dropShadow getter, turned
into the object input shape the constructor accepts (the clone path). -/
def partialOfDropShadow (ds : TextDropShadow) : PartialDropShadow :=
  { alpha := some ds.alpha
    angle := some ds.angle
    blur := some ds.blur
    color := some ds.color
    distance := some ds.distance }

/-- A converted descriptor handed back in as a raw input, as clone does
with the private fill and stroke fields (null stays null). -/
def fillInputOfConverted : Option ConvertedFillStyle → FillInput
  | none => .nullv
  | some c => .styleObj
      { color := some c.color
        alpha := some c.alpha
        texture := c.texture
        fill := c.fill
        width := some c.width }

/-- The options record clone passes to the constructor; trim is absent
from the source list, faithfully so here. -/
def TextStyle.cloneOptions (st : TextStyle) : TextStyleOptions :=
  { align := some st._align
    breakWords := some st._breakWords
    dropShadow := some (match st._dropShadow with
      | some ds => .objIn (partialOfDropShadow ds)
      | none => .nullIn)
    fill := some (fillInputOfConverted st._fill)
    fontFamily := some st._fontFamily
    fontSize := some (.num st._fontSize)
    fontStyle := some st._fontStyle
    fontVariant := some st._fontVariant
    fontWeight := some st._fontWeight
    leading := some st._leading
    letterSpacing := some st._letterSpacing
    lineHeight := some st._lineHeight
    padding := some st._padding
    stroke := some (fillInputOfConverted st._stroke)
    textBaseline := some st._textBaseline
    whiteSpace := some st._whiteSpace
    wordWrap := some st._wordWrap
    wordWrapWidth := some st._wordWrapWidth }

/-- TextStyle.clone: construct a new instance from the current values. -/
def TextStyle.clone (st : TextStyle) : Except String SetterResult :=
  mkTextStyle st.cloneOptions

/-- The destroy options: a boolean, or a record with optional texture
and textureSource flags. -/
inductive DestroyOptions
  | bool (b : Bool)
  | opts (texture : Option Bool) (textureSource : Option Bool)
deriving DecidableEq

/-- The texture of a converted descriptor, if any. -/
def convTexOf : Option ConvertedFillStyle → Option Texture
  | some c => c.texture
  | none => none

/-- The texture of a retained raw input, if it is an object carrying
one. -/
def rawTexOf : Option FillInput → Option Texture
  | some (.styleObj r) => r.texture
  | _ => none

def texEffect (t : Option Texture) (destroySource : Bool) : List (Nat × Bool) :=
  match t with
  | some tex => [(tex.uid, destroySource)]
  | none => []

/-- TextStyle.destroy: remove all listeners; when the texture flag is
truthy, destroy the textures reachable from the converted and raw fill
and stroke (recorded as effects with the textureSource flag); then null
the fill, stroke, drop shadow (through its setter, which emits) and
the two retained raw values. -/
def TextStyle.destroy (o : DestroyOptions) (st : TextStyle) :
    TextStyle × List (Nat × Bool) × List TextStyle :=
  let st1 := { st with listeners := 0 }
  let destroyTexture := match o with
    | .bool b => b
    | .opts t _ => t.getD false
  let destroyTextureSource := match o with
    | .bool b => b
    | .opts _ ts => ts.getD false
  let fx :=
    if destroyTexture then
      texEffect (convTexOf st1._fill) destroyTextureSource ++
      texEffect (rawTexOf st1._originalFill) destroyTextureSource ++
      texEffect (convTexOf st1._stroke) destroyTextureSource ++
      texEffect (rawTexOf st1._originalStroke) destroyTextureSource
    else []
  let st2 := { st1 with _fill := none, _stroke := none }
  let r := TextStyle.setDropShadow .nullIn st2
  let st3 := { r.1 with _originalStroke := some .nullv, _originalFill := some .nullv }
  (st3, fx, r.2)

/-- Extract the constructed state of a successful construction; the
error branch never fires on the inputs it is used with. -/
def styleOf (r : Except String SetterResult) : TextStyle :=
  match r with
  | .ok p => p.1
  | .error _ => initTextStyle

/-- The state of new TextStyle({}). -/
def defaultStyleState : TextStyle :=
  styleOf (mkTextStyle {})

/-- Stated from the words of the specification sentence for the
fontSize setter: the plain number obtained by stripping the non digit
characters from the string (none when no digit remains). -/
def specStripNonDigits (s : String) : Option Nat :=
  let ds := s.data.filter Char.isDigit
  if ds = [] then none
  else some (ds.foldl (fun acc c => acc * 10 + (c.toNat - 48)) 0)

/-- A single-property mutation: one constructor per public property,
carrying the value assigned to that property. -/
inductive PropChange
  | align (v : TextStyleAlign)
  | breakWords (v : Bool)
  | dropShadow (v : DropShadowInput)
  | fill (v : FillInput)
  | fontFamily (v : FontFamilyInput)
  | fontSize (v : FontSizeInput)
  | fontStyle (v : TextStyleFontStyle)
  | fontVariant (v : TextStyleFontVariant)
  | fontWeight (v : TextStyleFontWeight)
  | leading (v : ℚ)
  | letterSpacing (v : ℚ)
  | lineHeight (v : ℚ)
  | padding (v : ℚ)
  | stroke (v : FillInput)
  | textBaseline (v : TextStyleTextBaseline)
  | trim (v : Bool)
  | whiteSpace (v : TextStyleWhiteSpace)
  | wordWrap (v : Bool)
  | wordWrapWidth (v : ℚ)

/-- Apply a single-property mutation through the corresponding setter. -/
def applyChange (c : PropChange) (st : TextStyle) : TextStyle :=
  match c with
  | .align v => (TextStyle.setAlign v st).1
  | .breakWords v => (TextStyle.setBreakWords v st).1
  | .dropShadow v => (TextStyle.setDropShadow v st).1
  | .fill v => (TextStyle.setFill v st).1
  | .fontFamily v => (TextStyle.setFontFamily v st).1
  | .fontSize v => (TextStyle.setFontSize v st).1
  | .fontStyle v => (TextStyle.setFontStyle v st).1
  | .fontVariant v => (TextStyle.setFontVariant v st).1
  | .fontWeight v => (TextStyle.setFontWeight v st).1
  | .leading v => (TextStyle.setLeading v st).1
  | .letterSpacing v => (TextStyle.setLetterSpacing v st).1
  | .lineHeight v => (TextStyle.setLineHeight v st).1
  | .padding v => (TextStyle.setPadding v st).1
  | .stroke v => (TextStyle.setStroke v st).1
  | .textBaseline v => (TextStyle.setTextBaseline v st).1
  | .trim v => (TextStyle.setTrim v st).1
  | .whiteSpace v => (TextStyle.setWhiteSpace v st).1
  | .wordWrap v => (TextStyle.setWordWrap v st).1
  | .wordWrapWidth v => (TextStyle.setWordWrapWidth v st).1

/-- The mutation changes the value the property holds after the
assignment; for fill and stroke this requires both a different raw
input (so the setter does not skip) and a different converted
descriptor (the property value of the specification data model). -/
def changesValue (c : PropChange) (st : TextStyle) : Bool :=
  match c with
  | .align v => decide (v ≠ st._align)
  | .breakWords v => decide (v ≠ st._breakWords)
  | .dropShadow v => decide (dropShadowValueOf v ≠ st._dropShadow)
  | .fill v => decide (some v ≠ st._originalFill) && decide (fillConvValue v ≠ st._fill)
  | .fontFamily v => decide (v ≠ st._fontFamily)
  | .fontSize v => decide (fontSizeValueOf v ≠ st._fontSize)
  | .fontStyle v => decide (v ≠ st._fontStyle)
  | .fontVariant v => decide (v ≠ st._fontVariant)
  | .fontWeight v => decide (v ≠ st._fontWeight)
  | .leading v => decide (v ≠ st._leading)
  | .letterSpacing v => decide (v ≠ st._letterSpacing)
  | .lineHeight v => decide (v ≠ st._lineHeight)
  | .padding v => decide (v ≠ st._padding)
  | .stroke v => decide (some v ≠ st._originalStroke) && decide (strokeConvValue v ≠ st._stroke)
  | .textBaseline v => decide (v ≠ st._textBaseline)
  | .trim v => decide (v ≠ st._trim)
  | .whiteSpace v => decide (v ≠ st._whiteSpace)
  | .wordWrap v => decide (v ≠ st._wordWrap)
  | .wordWrapWidth v => decide (v ≠ st._wordWrapWidth)

/-- Two styles agree on every public property (the configuration the
derived key summarizes); the retained raw inputs, the cached key, and
the listener list are not part of the property set. -/
abbrev sameProps (s1 s2 : TextStyle) : Prop :=
  s1._align = s2._align ∧ s1._breakWords = s2._breakWords ∧
  s1._dropShadow = s2._dropShadow ∧ s1._fill = s2._fill ∧
  s1._fontFamily = s2._fontFamily ∧ s1._fontSize = s2._fontSize ∧
  s1._fontStyle = s2._fontStyle ∧ s1._fontVariant = s2._fontVariant ∧
  s1._fontWeight = s2._fontWeight ∧ s1._leading = s2._leading ∧
  s1._letterSpacing = s2._letterSpacing ∧ s1._lineHeight = s2._lineHeight ∧
  s1._padding = s2._padding ∧ s1._stroke = s2._stroke ∧
  s1._textBaseline = s2._textBaseline ∧ s1._trim = s2._trim ∧
  s1._whiteSpace = s2._whiteSpace ∧ s1._wordWrap = s2._wordWrap ∧
  s1._wordWrapWidth = s2._wordWrapWidth

/-- The stop list the spec expects for a two-color legacy gradient with
no explicit positions: positions index divided by length, that is 0 and
one half. -/
def evenStopsGradient : FillGradient :=
  { x0 := some 0, y0 := some 0, x1 := some 0, y1 := none
    colorStops := [(0, 0), (mkRat 1 2, 16777215)] }

theorem comb2_inj {a b c d : List Nat} (h : comb2 a b = comb2 c d) : a = c ∧ b = d := by
  simp only [comb2, List.cons.injEq] at h
  exact List.append_inj h.2 h.1

theorem encListN_inj (f : α → List Nat) (hf : ∀ x y, f x = f y → x = y) :
    ∀ l1 l2, encListN f l1 = encListN f l2 → l1 = l2
  | [], [] => fun _ => rfl
  | [], _ :: _ => fun h => by simp [encListN] at h
  | _ :: _, [] => fun h => by simp [encListN] at h
  | a :: t, b :: u => fun h => by
      simp only [encListN, List.cons.injEq, true_and] at h
      obtain ⟨hab, htu⟩ := comb2_inj h
      rw [hf a b hab, encListN_inj f hf t u htu]

theorem natEncBool_inj : ∀ x y : Bool, natEncBool x = natEncBool y → x = y := by decide

theorem natEncRat_inj {q r : ℚ} (h : natEncRat q = natEncRat r) : q = r := by
  simp only [natEncRat, List.cons.injEq, and_true] at h
  obtain ⟨h1, h2, h3⟩ := h
  refine Rat.ext ?_ h3
  split_ifs at h1 <;> omega

theorem natEncJSNum_inj {x y : Option ℚ} (h : natEncJSNum x = natEncJSNum y) : x = y := by
  cases x <;> cases y <;> simp [natEncJSNum] at h ⊢
  exact natEncRat_inj h

theorem charCode_inj : ∀ x y : Char, ([x.toNat] : List Nat) = [y.toNat] → x = y := by
  intro x y h
  simp only [List.cons.injEq, and_true] at h
  apply Char.eq_of_val_eq
  unfold Char.toNat at h
  exact UInt32.toNat.inj h

theorem natEncStr_inj {s1 s2 : String} (h : natEncStr s1 = natEncStr s2) : s1 = s2 := by
  have hd := encListN_inj _ charCode_inj s1.data s2.data h
  cases s1; cases s2
  exact congrArg String.mk (by simpa using hd)

theorem natEncColor_inj : ∀ c1 c2 : ColorSource, natEncColor c1 = natEncColor c2 → c1 = c2 := by
  intro c1 c2 h
  cases c1 <;> cases c2 <;> simp [natEncColor] at h ⊢
  · exact natEncStr_inj h
  · exact natEncRat_inj h

theorem natEncFontFamily_inj :
    ∀ f1 f2 : FontFamilyInput, natEncFontFamily f1 = natEncFontFamily f2 → f1 = f2 := by
  intro f1 f2 h
  cases f1 <;> cases f2 <;> simp [natEncFontFamily] at h ⊢
  · exact natEncStr_inj h
  · exact encListN_inj _ (fun _ _ hh => natEncStr_inj hh) _ _ h

theorem natEncTex_inj : ∀ t1 t2 : Option Texture, natEncTex t1 = natEncTex t2 → t1 = t2 := by
  intro t1 t2 h
  cases t1 <;> cases t2 <;> simp [natEncTex] at h ⊢
  rename_i a b
  cases a; cases b
  simpa using h

theorem natEncDropShadow_inj :
    ∀ d1 d2 : TextDropShadow, natEncDropShadow d1 = natEncDropShadow d2 → d1 = d2 := by
  intro d1 d2 h
  unfold natEncDropShadow at h
  obtain ⟨ha, h⟩ := comb2_inj h
  obtain ⟨hg, h⟩ := comb2_inj h
  obtain ⟨hb, h⟩ := comb2_inj h
  obtain ⟨hc, hd⟩ := comb2_inj h
  cases d1; cases d2
  simp only [TextDropShadow.mk.injEq]
  exact ⟨natEncRat_inj ha, natEncRat_inj hg, natEncRat_inj hb,
    natEncColor_inj _ _ hc, natEncRat_inj hd⟩

theorem natEncOptDS_inj :
    ∀ d1 d2 : Option TextDropShadow, natEncOptDS d1 = natEncOptDS d2 → d1 = d2 := by
  intro d1 d2 h
  cases d1 <;> cases d2 <;> simp [natEncOptDS] at h ⊢
  exact natEncDropShadow_inj _ _ h

theorem natEncStop_inj :
    ∀ p1 p2 : ℚ × ℚ, comb2 (natEncRat p1.1) (natEncRat p1.2) =
      comb2 (natEncRat p2.1) (natEncRat p2.2) → p1 = p2 := by
  intro p1 p2 h
  obtain ⟨h1, h2⟩ := comb2_inj h
  cases p1; cases p2
  simp only [Prod.mk.injEq]
  exact ⟨natEncRat_inj h1, natEncRat_inj h2⟩

theorem natEncGradient_inj :
    ∀ g1 g2 : FillGradient, natEncGradient g1 = natEncGradient g2 → g1 = g2 := by
  intro g1 g2 h
  unfold natEncGradient at h
  obtain ⟨h0, h⟩ := comb2_inj h
  obtain ⟨h1, h⟩ := comb2_inj h
  obtain ⟨h2, h⟩ := comb2_inj h
  obtain ⟨h3, h4⟩ := comb2_inj h
  cases g1; cases g2
  simp only [FillGradient.mk.injEq]
  exact ⟨natEncJSNum_inj h0, natEncJSNum_inj h1, natEncJSNum_inj h2, natEncJSNum_inj h3,
    encListN_inj _ natEncStop_inj _ _ h4⟩

theorem natEncOptGrad_inj :
    ∀ g1 g2 : Option FillGradient, natEncOptGrad g1 = natEncOptGrad g2 → g1 = g2 := by
  intro g1 g2 h
  cases g1 <;> cases g2 <;> simp [natEncOptGrad] at h ⊢
  exact natEncGradient_inj _ _ h

theorem natEncConverted_inj :
    ∀ c1 c2 : ConvertedFillStyle, natEncConverted c1 = natEncConverted c2 → c1 = c2 := by
  intro c1 c2 h
  unfold natEncConverted at h
  obtain ⟨h0, h⟩ := comb2_inj h
  obtain ⟨h1, h⟩ := comb2_inj h
  obtain ⟨h2, h⟩ := comb2_inj h
  obtain ⟨h3, h4⟩ := comb2_inj h
  cases c1; cases c2
  simp only [ConvertedFillStyle.mk.injEq]
  exact ⟨natEncColor_inj _ _ h0, natEncRat_inj h1, natEncTex_inj _ _ h2,
    natEncOptGrad_inj _ _ h3, natEncRat_inj h4⟩

theorem natEncOptConv_inj :
    ∀ c1 c2 : Option ConvertedFillStyle, natEncOptConv c1 = natEncOptConv c2 → c1 = c2 := by
  intro c1 c2 h
  cases c1 <;> cases c2 <;> simp [natEncOptConv] at h ⊢
  exact natEncConverted_inj _ _ h

theorem alignToNat_inj : ∀ a b : TextStyleAlign, alignToNat a = alignToNat b → a = b := by
  decide

theorem fontStyleToNat_inj :
    ∀ a b : TextStyleFontStyle, fontStyleToNat a = fontStyleToNat b → a = b := by decide

theorem fontVariantToNat_inj :
    ∀ a b : TextStyleFontVariant, fontVariantToNat a = fontVariantToNat b → a = b := by decide

theorem fontWeightToNat_inj :
    ∀ a b : TextStyleFontWeight, fontWeightToNat a = fontWeightToNat b → a = b := by decide

theorem textBaselineToNat_inj :
    ∀ a b : TextStyleTextBaseline, textBaselineToNat a = textBaselineToNat b → a = b := by
  decide

theorem whiteSpaceToNat_inj :
    ∀ a b : TextStyleWhiteSpace, whiteSpaceToNat a = whiteSpaceToNat b → a = b := by decide

theorem natEncAll_inj {s1 s2 : TextStyle} (h : natEncAll s1 = natEncAll s2) :
    sameProps s1 s2 := by
  unfold natEncAll at h
  obtain ⟨e1, h⟩ := comb2_inj h
  obtain ⟨e2, h⟩ := comb2_inj h
  obtain ⟨e3, h⟩ := comb2_inj h
  obtain ⟨e4, h⟩ := comb2_inj h
  obtain ⟨e5, h⟩ := comb2_inj h
  obtain ⟨e6, h⟩ := comb2_inj h
  obtain ⟨e7, h⟩ := comb2_inj h
  obtain ⟨e8, h⟩ := comb2_inj h
  obtain ⟨e9, h⟩ := comb2_inj h
  obtain ⟨e10, h⟩ := comb2_inj h
  obtain ⟨e11, h⟩ := comb2_inj h
  obtain ⟨e12, h⟩ := comb2_inj h
  obtain ⟨e13, h⟩ := comb2_inj h
  obtain ⟨e14, h⟩ := comb2_inj h
  obtain ⟨e15, h⟩ := comb2_inj h
  obtain ⟨e16, h⟩ := comb2_inj h
  obtain ⟨e17, h⟩ := comb2_inj h
  obtain ⟨e18, e19⟩ := comb2_inj h
  exact ⟨alignToNat_inj _ _ (by simpa using e1), natEncBool_inj _ _ e2,
    natEncOptDS_inj _ _ e3, natEncOptConv_inj _ _ e4, natEncFontFamily_inj _ _ e5,
    natEncJSNum_inj e6, fontStyleToNat_inj _ _ (by simpa using e7),
    fontVariantToNat_inj _ _ (by simpa using e8),
    fontWeightToNat_inj _ _ (by simpa using e9), natEncRat_inj e10, natEncRat_inj e11,
    natEncRat_inj e12, natEncRat_inj e13, natEncOptConv_inj _ _ e14,
    textBaselineToNat_inj _ _ (by simpa using e15), natEncBool_inj _ _ e16,
    whiteSpaceToNat_inj _ _ (by simpa using e17), natEncBool_inj _ _ e18,
    natEncRat_inj e19⟩

theorem digitToChar_ne_comma (d : Nat) : digitToChar d ≠ ',' :=
  match d with
  | 0 => by decide
  | 1 => by decide
  | 2 => by decide
  | 3 => by decide
  | 4 => by decide
  | 5 => by decide
  | 6 => by decide
  | 7 => by decide
  | 8 => by decide
  | 9 => by decide
  | n + 10 => by
      have h : digitToChar (n + 10) = 'x' := rfl
      rw [h]; decide

theorem digitToChar_inj10 :
    ∀ x < 10, ∀ y < 10, digitToChar x = digitToChar y → x = y := by decide

theorem encNatPos_no_comma {n : Nat} : ∀ c ∈ encNatPos n, c ≠ ',' := by
  intro c hc
  simp only [encNatPos, List.mem_map] at hc
  obtain ⟨d, -, rfl⟩ := hc
  exact digitToChar_ne_comma d

theorem mapDigits_inj :
    ∀ l1 l2 : List Nat, (∀ x ∈ l1, x < 10) → (∀ x ∈ l2, x < 10) →
      l1.map digitToChar = l2.map digitToChar → l1 = l2
  | [], [], _, _, _ => rfl
  | [], _ :: _, _, _, h => by simp at h
  | _ :: _, [], _, _, h => by simp at h
  | a :: t, b :: u, h1, h2, h => by
      simp only [List.map_cons, List.cons.injEq] at h
      have ha := h1 a (by simp)
      have hb := h2 b (by simp)
      rw [digitToChar_inj10 a ha b hb h.1,
        mapDigits_inj t u (fun x hx => h1 x (by simp [hx])) (fun x hx => h2 x (by simp [hx])) h.2]

theorem encNatPos_inj {a b : Nat} (h : encNatPos a = encNatPos b) : a = b := by
  have hd : Nat.digits 10 a = Nat.digits 10 b :=
    mapDigits_inj _ _ (fun _ hx => Nat.digits_lt_base (by norm_num) hx)
      (fun _ hx => Nat.digits_lt_base (by norm_num) hx) h
  have h2 := congrArg (Nat.ofDigits 10) hd
  simpa [Nat.ofDigits_digits] using h2

theorem comma_split :
    ∀ (as bs as2 bs2 : List Char), (∀ c ∈ as, c ≠ ',') → (∀ c ∈ bs, c ≠ ',') →
      as ++ ',' :: as2 = bs ++ ',' :: bs2 → as = bs ∧ as2 = bs2
  | [], [], _, _, _, _, h => by simpa using h
  | [], b :: bs, _, _, _, hb, h => by
      simp only [List.nil_append, List.cons_append, List.cons.injEq] at h
      exact absurd h.1.symm (hb b (by simp))
  | a :: as, [], _, _, ha, _, h => by
      simp only [List.nil_append, List.cons_append, List.cons.injEq] at h
      exact absurd h.1 (ha a (by simp))
  | a :: as, b :: bs, as2, bs2, ha, hb, h => by
      simp only [List.cons_append, List.cons.injEq] at h
      have := comma_split as bs as2 bs2 (fun c hc => ha c (by simp [hc]))
        (fun c hc => hb c (by simp [hc])) h.2
      exact ⟨by rw [h.1, this.1], this.2⟩

theorem sepEncNats_inj : ∀ l1 l2 : List Nat, sepEncNats l1 = sepEncNats l2 → l1 = l2
  | [], [], _ => rfl
  | [], n :: t, h => by
      have := congrArg List.length h
      simp only [sepEncNats, List.length_append, List.length_cons, List.length_nil] at this
      omega
  | n :: t, [], h => by
      have := congrArg List.length h
      simp only [sepEncNats, List.length_append, List.length_cons, List.length_nil] at this
      omega
  | a :: t, b :: u, h => by
      simp only [sepEncNats] at h
      obtain ⟨h1, h2⟩ := comma_split _ _ _ _ encNatPos_no_comma encNatPos_no_comma h
      rw [encNatPos_inj h1, sepEncNats_inj t u h2]

theorem generateTextStyleKey_sameProps {s1 s2 : TextStyle}
    (h : generateTextStyleKey s1 = generateTextStyleKey s2) : sameProps s1 s2 := by
  unfold generateTextStyleKey at h
  have h2 := congrArg String.data h
  simp only [] at h2
  exact natEncAll_inj (sepEncNats_inj _ _ h2)

theorem generateTextStyleKey_congr {s1 s2 : TextStyle} (h : sameProps s1 s2) :
    generateTextStyleKey s1 = generateTextStyleKey s2 := by
  obtain ⟨h1, h2, h3, h4, h5, h6, h7, h8, h9, h10, h11, h12, h13, h14, h15, h16, h17, h18,
    h19⟩ := h
  unfold generateTextStyleKey natEncAll
  rw [h1, h2, h3, h4, h5, h6, h7, h8, h9, h10, h11, h12, h13, h14, h15, h16, h17, h18, h19]

theorem styleKey_of_none {st : TextStyle} (h : st._styleKey = none) :
    TextStyle.styleKey st =
      (generateTextStyleKey st, { st with _styleKey := some (generateTextStyleKey st) }) := by
  simp [TextStyle.styleKey, h, TextStyle._generateKey]

theorem piOver6_eq : piOver6 = mathPI / 6 := by
  unfold piOver6 mathPI
  rw [Rat.mk'_eq_divInt]
  norm_num
  rw [Rat.divInt_eq_div]
  norm_num

theorem styleKey_some_ne (st : TextStyle) {k : String} (h : st._styleKey = some k)
    (hk : k ≠ "") : TextStyle.styleKey st = (k, st) := by
  simp [TextStyle.styleKey, h, hk]

theorem styleKey_some_empty (st : TextStyle) (h : st._styleKey = some "") :
    TextStyle.styleKey st =
      (generateTextStyleKey st, { st with _styleKey := some (generateTextStyleKey st) }) := by
  simp [TextStyle.styleKey, h, TextStyle._generateKey]

/-- Claim C2: for every state, reading styleKey twice with no
intervening mutation returns the identical string; the first read
caches the key and the second read leaves the state unchanged. -/
theorem claim2_styleKey_memoized :
    ∀ st : TextStyle,
      (TextStyle.styleKey (TextStyle.styleKey st).2).1 = (TextStyle.styleKey st).1 ∧
      (TextStyle.styleKey (TextStyle.styleKey st).2).2 = (TextStyle.styleKey st).2 ∧
      ((TextStyle.styleKey st).2)._styleKey = some (TextStyle.styleKey st).1 := by
  intro st
  rcases h : st._styleKey with _ | k
  · rw [styleKey_of_none h]
    by_cases hk : generateTextStyleKey st = ""
    · rw [styleKey_some_empty { st with _styleKey := some (generateTextStyleKey st) }
        (by simp [hk])]
      exact ⟨rfl, rfl, rfl⟩
    · rw [styleKey_some_ne { st with _styleKey := some (generateTextStyleKey st) } rfl hk]
      exact ⟨rfl, rfl, rfl⟩
  · by_cases hk : k = ""
    · subst hk
      rw [styleKey_some_empty st h]
      by_cases hk2 : generateTextStyleKey st = ""
      · rw [styleKey_some_empty { st with _styleKey := some (generateTextStyleKey st) }
          (by simp [hk2])]
        exact ⟨rfl, rfl, rfl⟩
      · rw [styleKey_some_ne { st with _styleKey := some (generateTextStyleKey st) } rfl hk2]
        exact ⟨rfl, rfl, rfl⟩
    · rw [styleKey_some_ne st h hk]
      exact ⟨by rw [styleKey_some_ne st h hk], by rw [styleKey_some_ne st h hk], h⟩

/-- Claim C1 (amended): two instances with the same property values have
the same derived key, and changing the value any single property holds
changes the key; for fill and stroke, changing the value means a raw
input that is not the retained one and whose converted descriptor
differs from the current one, since the key summarizes the converted
descriptors and two different raw inputs converting to the same
descriptor leave the key unchanged (see the counterexample). -/
theorem claim1_key_distinguishes_properties :
    (∀ s1 s2 : TextStyle, sameProps s1 s2 → s1._styleKey = none → s2._styleKey = none →
      (TextStyle.styleKey s1).1 = (TextStyle.styleKey s2).1) ∧
    (∀ (st : TextStyle) (c : PropChange), st._styleKey = none → changesValue c st = true →
      (TextStyle.styleKey (applyChange c st)).1 ≠ (TextStyle.styleKey st).1) := by
  constructor
  · intro s1 s2 hp h1 h2
    rw [styleKey_of_none h1, styleKey_of_none h2]
    exact generateTextStyleKey_congr hp
  · intro st c hk hc
    rw [styleKey_of_none hk]
    cases c with
    | align v =>
        simp only [changesValue, decide_eq_true_eq, ne_eq] at hc
        rw [styleKey_of_none (show (applyChange (PropChange.align v) st)._styleKey = none
          from rfl)]
        intro he
        obtain ⟨p, -, -, -, -, -, -, -, -, -, -, -, -, -, -, -, -, -, -⟩ :=
          generateTextStyleKey_sameProps he
        exact hc p
    | breakWords v =>
        simp only [changesValue, decide_eq_true_eq, ne_eq] at hc
        rw [styleKey_of_none (show (applyChange (PropChange.breakWords v) st)._styleKey = none
          from rfl)]
        intro he
        obtain ⟨-, p, -, -, -, -, -, -, -, -, -, -, -, -, -, -, -, -, -⟩ :=
          generateTextStyleKey_sameProps he
        exact hc p
    | dropShadow v =>
        simp only [changesValue, decide_eq_true_eq, ne_eq] at hc
        rw [styleKey_of_none (show (applyChange (PropChange.dropShadow v) st)._styleKey = none
          from rfl)]
        intro he
        obtain ⟨-, -, p, -, -, -, -, -, -, -, -, -, -, -, -, -, -, -, -⟩ :=
          generateTextStyleKey_sameProps he
        exact hc p
    | fill v =>
        simp only [changesValue, Bool.and_eq_true, decide_eq_true_eq, ne_eq] at hc
        obtain ⟨h1, h2⟩ := hc
        have e : applyChange (PropChange.fill v) st =
            { st with
                _originalFill := some v
                _fill := fillConvValue v
                _styleKey := none } := by
          simp only [applyChange, TextStyle.setFill, TextStyle.update]
          rw [if_neg (fun hh => h1 hh.symm)]
        have hn : (applyChange (PropChange.fill v) st)._styleKey = none := by rw [e]
        rw [styleKey_of_none hn]
        intro he
        obtain ⟨-, -, -, p, -, -, -, -, -, -, -, -, -, -, -, -, -, -, -⟩ :=
          generateTextStyleKey_sameProps he
        rw [e] at p
        exact h2 p
    | fontFamily v =>
        simp only [changesValue, decide_eq_true_eq, ne_eq] at hc
        rw [styleKey_of_none (show (applyChange (PropChange.fontFamily v) st)._styleKey = none
          from rfl)]
        intro he
        obtain ⟨-, -, -, -, p, -, -, -, -, -, -, -, -, -, -, -, -, -, -⟩ :=
          generateTextStyleKey_sameProps he
        exact hc p
    | fontSize v =>
        simp only [changesValue, decide_eq_true_eq, ne_eq] at hc
        rw [styleKey_of_none (show (applyChange (PropChange.fontSize v) st)._styleKey = none
          from rfl)]
        intro he
        obtain ⟨-, -, -, -, -, p, -, -, -, -, -, -, -, -, -, -, -, -, -⟩ :=
          generateTextStyleKey_sameProps he
        exact hc p
    | fontStyle v =>
        simp only [changesValue, decide_eq_true_eq, ne_eq] at hc
        rw [styleKey_of_none (show (applyChange (PropChange.fontStyle v) st)._styleKey = none
          from rfl)]
        intro he
        obtain ⟨-, -, -, -, -, -, p, -, -, -, -, -, -, -, -, -, -, -, -⟩ :=
          generateTextStyleKey_sameProps he
        exact hc p
    | fontVariant v =>
        simp only [changesValue, decide_eq_true_eq, ne_eq] at hc
        rw [styleKey_of_none (show (applyChange (PropChange.fontVariant v) st)._styleKey = none
          from rfl)]
        intro he
        obtain ⟨-, -, -, -, -, -, -, p, -, -, -, -, -, -, -, -, -, -, -⟩ :=
          generateTextStyleKey_sameProps he
        exact hc p
    | fontWeight v =>
        simp only [changesValue, decide_eq_true_eq, ne_eq] at hc
        rw [styleKey_of_none (show (applyChange (PropChange.fontWeight v) st)._styleKey = none
          from rfl)]
        intro he
        obtain ⟨-, -, -, -, -, -, -, -, p, -, -, -, -, -, -, -, -, -, -⟩ :=
          generateTextStyleKey_sameProps he
        exact hc p
    | leading v =>
        simp only [changesValue, decide_eq_true_eq, ne_eq] at hc
        rw [styleKey_of_none (show (applyChange (PropChange.leading v) st)._styleKey = none
          from rfl)]
        intro he
        obtain ⟨-, -, -, -, -, -, -, -, -, p, -, -, -, -, -, -, -, -, -⟩ :=
          generateTextStyleKey_sameProps he
        exact hc p
    | letterSpacing v =>
        simp only [changesValue, decide_eq_true_eq, ne_eq] at hc
        rw [styleKey_of_none
          (show (applyChange (PropChange.letterSpacing v) st)._styleKey = none from rfl)]
        intro he
        obtain ⟨-, -, -, -, -, -, -, -, -, -, p, -, -, -, -, -, -, -, -⟩ :=
          generateTextStyleKey_sameProps he
        exact hc p
    | lineHeight v =>
        simp only [changesValue, decide_eq_true_eq, ne_eq] at hc
        rw [styleKey_of_none (show (applyChange (PropChange.lineHeight v) st)._styleKey = none
          from rfl)]
        intro he
        obtain ⟨-, -, -, -, -, -, -, -, -, -, -, p, -, -, -, -, -, -, -⟩ :=
          generateTextStyleKey_sameProps he
        exact hc p
    | padding v =>
        simp only [changesValue, decide_eq_true_eq, ne_eq] at hc
        rw [styleKey_of_none (show (applyChange (PropChange.padding v) st)._styleKey = none
          from rfl)]
        intro he
        obtain ⟨-, -, -, -, -, -, -, -, -, -, -, -, p, -, -, -, -, -, -⟩ :=
          generateTextStyleKey_sameProps he
        exact hc p
    | stroke v =>
        simp only [changesValue, Bool.and_eq_true, decide_eq_true_eq, ne_eq] at hc
        obtain ⟨h1, h2⟩ := hc
        have e : applyChange (PropChange.stroke v) st =
            { st with
                _originalStroke := some v
                _stroke := strokeConvValue v
                _styleKey := none } := by
          simp only [applyChange, TextStyle.setStroke, TextStyle.update]
          rw [if_neg (fun hh => h1 hh.symm)]
        have hn : (applyChange (PropChange.stroke v) st)._styleKey = none := by rw [e]
        rw [styleKey_of_none hn]
        intro he
        obtain ⟨-, -, -, -, -, -, -, -, -, -, -, -, -, p, -, -, -, -, -⟩ :=
          generateTextStyleKey_sameProps he
        rw [e] at p
        exact h2 p
    | textBaseline v =>
        simp only [changesValue, decide_eq_true_eq, ne_eq] at hc
        rw [styleKey_of_none
          (show (applyChange (PropChange.textBaseline v) st)._styleKey = none from rfl)]
        intro he
        obtain ⟨-, -, -, -, -, -, -, -, -, -, -, -, -, -, p, -, -, -, -⟩ :=
          generateTextStyleKey_sameProps he
        exact hc p
    | trim v =>
        simp only [changesValue, decide_eq_true_eq, ne_eq] at hc
        rw [styleKey_of_none (show (applyChange (PropChange.trim v) st)._styleKey = none
          from rfl)]
        intro he
        obtain ⟨-, -, -, -, -, -, -, -, -, -, -, -, -, -, -, p, -, -, -⟩ :=
          generateTextStyleKey_sameProps he
        exact hc p
    | whiteSpace v =>
        simp only [changesValue, decide_eq_true_eq, ne_eq] at hc
        rw [styleKey_of_none (show (applyChange (PropChange.whiteSpace v) st)._styleKey = none
          from rfl)]
        intro he
        obtain ⟨-, -, -, -, -, -, -, -, -, -, -, -, -, -, -, -, p, -, -⟩ :=
          generateTextStyleKey_sameProps he
        exact hc p
    | wordWrap v =>
        simp only [changesValue, decide_eq_true_eq, ne_eq] at hc
        rw [styleKey_of_none (show (applyChange (PropChange.wordWrap v) st)._styleKey = none
          from rfl)]
        intro he
        obtain ⟨-, -, -, -, -, -, -, -, -, -, -, -, -, -, -, -, -, p, -⟩ :=
          generateTextStyleKey_sameProps he
        exact hc p
    | wordWrapWidth v =>
        simp only [changesValue, decide_eq_true_eq, ne_eq] at hc
        rw [styleKey_of_none
          (show (applyChange (PropChange.wordWrapWidth v) st)._styleKey = none from rfl)]
        intro he
        obtain ⟨-, -, -, -, -, -, -, -, -, -, -, -, -, -, -, -, -, -, p⟩ :=
          generateTextStyleKey_sameProps he
        exact hc p

/-- Claim C1 witness: the amended theorem applied at the default
constructed instance, with a concrete change of the align property. -/
theorem claim1_witness :
    ((TextStyle.styleKey defaultStyleState).1 = (TextStyle.styleKey defaultStyleState).1) ∧
    (TextStyle.styleKey
        (applyChange (PropChange.align TextStyleAlign.center) defaultStyleState)).1 ≠
      (TextStyle.styleKey defaultStyleState).1 :=
  ⟨claim1_key_distinguishes_properties.1 defaultStyleState defaultStyleState
      (by decide) (by decide) (by decide),
   claim1_key_distinguishes_properties.2 defaultStyleState (.align .center) (by decide)
      (by decide)⟩

/-- Claim C1 counterexample: on the default instance, reassigning fill
to the already converted descriptor of the current fill changes the
value the fill property returns (the retained raw input) but leaves the
derived key unchanged, refuting the unrestricted claim that changing
any single property value changes the key. -/
theorem claim1_counterexample :
    (TextStyle.setFill (fillInputOfConverted defaultStyleState._fill)
        defaultStyleState).1._originalFill ≠ defaultStyleState._originalFill ∧
    (TextStyle.styleKey (TextStyle.setFill (fillInputOfConverted defaultStyleState._fill)
        defaultStyleState).1).1 = (TextStyle.styleKey defaultStyleState).1 := by
  constructor
  · decide
  · rw [styleKey_of_none (by decide : (TextStyle.setFill
      (fillInputOfConverted defaultStyleState._fill) defaultStyleState).1._styleKey = none),
      styleKey_of_none (by decide : defaultStyleState._styleKey = none)]
    exact generateTextStyleKey_congr (by decide)

/-- Claim C3 counterexample: on the default constructed instance,
calling the fill setter with the currently retained raw value (the
default black) emits zero update notifications, not exactly one. -/
theorem claim3_counterexample :
    (TextStyle.setFill (FillInput.str "black") defaultStyleState).2.length = 0 ∧
    (TextStyle.setFill (FillInput.str "black") defaultStyleState).2.length ≠ 1 := by
  decide

/-- Claim C3 (amended): every property setter call emits exactly one
update notification whose payload is the instance itself, except the
fill and stroke setters, which emit none when the assigned value is
strictly equal to the retained raw value; reset emits one notification
per property assignment except the fill and stroke assignments skipped
by that same check. -/
theorem claim3_update_emissions_amended :
    ∀ st : TextStyle,
      (∀ v, (TextStyle.setAlign v st).2 = [(TextStyle.setAlign v st).1]) ∧
      (∀ v, (TextStyle.setBreakWords v st).2 = [(TextStyle.setBreakWords v st).1]) ∧
      (∀ v, (TextStyle.setDropShadow v st).2 = [(TextStyle.setDropShadow v st).1]) ∧
      (∀ v, (TextStyle.setFontFamily v st).2 = [(TextStyle.setFontFamily v st).1]) ∧
      (∀ v, (TextStyle.setFontSize v st).2 = [(TextStyle.setFontSize v st).1]) ∧
      (∀ v, (TextStyle.setFontStyle v st).2 = [(TextStyle.setFontStyle v st).1]) ∧
      (∀ v, (TextStyle.setFontVariant v st).2 = [(TextStyle.setFontVariant v st).1]) ∧
      (∀ v, (TextStyle.setFontWeight v st).2 = [(TextStyle.setFontWeight v st).1]) ∧
      (∀ v, (TextStyle.setLeading v st).2 = [(TextStyle.setLeading v st).1]) ∧
      (∀ v, (TextStyle.setLetterSpacing v st).2 = [(TextStyle.setLetterSpacing v st).1]) ∧
      (∀ v, (TextStyle.setLineHeight v st).2 = [(TextStyle.setLineHeight v st).1]) ∧
      (∀ v, (TextStyle.setPadding v st).2 = [(TextStyle.setPadding v st).1]) ∧
      (∀ v, (TextStyle.setTextBaseline v st).2 = [(TextStyle.setTextBaseline v st).1]) ∧
      (∀ v, (TextStyle.setTrim v st).2 = [(TextStyle.setTrim v st).1]) ∧
      (∀ v, (TextStyle.setWhiteSpace v st).2 = [(TextStyle.setWhiteSpace v st).1]) ∧
      (∀ v, (TextStyle.setWordWrap v st).2 = [(TextStyle.setWordWrap v st).1]) ∧
      (∀ v, (TextStyle.setWordWrapWidth v st).2 = [(TextStyle.setWordWrapWidth v st).1]) ∧
      (∀ v, (TextStyle.setFill v st).2 =
        if st._originalFill = some v then [] else [(TextStyle.setFill v st).1]) ∧
      (∀ v, (TextStyle.setStroke v st).2 =
        if st._originalStroke = some v then [] else [(TextStyle.setStroke v st).1]) ∧
      (TextStyle.reset st).2.length =
        19 - ((if st._originalFill = some (FillInput.str "black") then 1 else 0) +
              (if st._originalStroke = some FillInput.nullv then 1 else 0)) := by
  intro st
  and_intros <;> try (intro v; rfl)
  · intro v
    by_cases h : st._originalFill = some v <;>
      simp [TextStyle.setFill, TextStyle.update, h]
  · intro v
    by_cases h : st._originalStroke = some v <;>
      simp [TextStyle.setStroke, TextStyle.update, h]
  · by_cases h1 : st._originalFill = some (FillInput.str "black") <;>
      by_cases h2 : st._originalStroke = some FillInput.nullv <;>
      simp [TextStyle.reset, applyStyleValues, TextStyle.setAlign, TextStyle.setBreakWords,
        TextStyle.setDropShadow, TextStyle.setFill, TextStyle.setFontFamily,
        TextStyle.setFontSize, TextStyle.setFontStyle, TextStyle.setFontVariant,
        TextStyle.setFontWeight, TextStyle.setLeading, TextStyle.setLetterSpacing,
        TextStyle.setLineHeight, TextStyle.setPadding, TextStyle.setStroke,
        TextStyle.setTextBaseline, TextStyle.setTrim, TextStyle.setWhiteSpace,
        TextStyle.setWordWrap, TextStyle.setWordWrapWidth, TextStyle.update,
        TextStyle.defaultTextStyle, h1, h2]

/-- Claim C4: the legacy array fill input with no explicit stop list
crashes convertV7Tov8Style (and hence the constructor) with a TypeError
instead of producing the documented two-stop gradient; the same input
with an explicit empty stop array shows the intended even-spacing
fallback, stops at positions 0 and one half (index over length). -/
theorem claim4_legacy_gradient_crash :
    convertV7Tov8Style { fill := some (.numList [0, 16777215]) } =
      .error "TypeError: cannot read property of undefined fillGradientStops" ∧
    mkTextStyle { fill := some (.numList [0, 16777215]) } =
      .error "TypeError: cannot read property of undefined fillGradientStops" ∧
    ((convertV7Tov8Style
        { fill := some (.numList [0, 16777215]), fillGradientStops := some [] }).toOption.map
      (fun o => o.fill)) =
      some (some (.styleObj { fill := some evenStopsGradient })) ∧
    mkRat 1 2 = 1 / 2 := by
  refine ⟨rfl, rfl, by decide, by norm_num⟩

/-- Claim C5: constructing from the legacy input with dropShadow true
and dropShadowBlur 4 stores a drop-shadow record with blur 4 and every
other field equal to the documented defaultDropShadow. -/
theorem claim5_legacy_dropShadow_defaults :
    (styleOf (mkTextStyle
        { dropShadow := some (.boolIn true), dropShadowBlur := some 4 }))._dropShadow =
      some { TextStyle.defaultDropShadow with blur := 4 } := by
  decide

/-- Claim C6 counterexample: parseInt stores 2 for the string 2a6,
while stripping the non digit characters as the claim describes would
give 26; the two disagree, refuting the claim for this input. -/
theorem claim6_counterexample :
    (TextStyle.setFontSize (FontSizeInput.str "2a6") defaultStyleState).1._fontSize = some 2 ∧
    specStripNonDigits "2a6" = some 26 ∧ (2 : ℚ) ≠ 26 := by
  decide

/-- Claim C6 (amended): a string assigned to the fontSize setter is
stored as parseInt of the string in base 10 (the maximal leading digit
run after optional whitespace and sign, NaN when empty), which agrees
with the stripping description on plain digit-then-suffix strings such
as 26px; the assignment also nulls the cached key and emits exactly one
change event carrying the instance. -/
theorem claim6_fontSize_parseInt_amended :
    ∀ (s : String) (st : TextStyle),
      (TextStyle.setFontSize (.str s) st).1._fontSize = jsParseInt10 s ∧
      (TextStyle.setFontSize (.str s) st).1._styleKey = none ∧
      (TextStyle.setFontSize (.str s) st).2 = [(TextStyle.setFontSize (.str s) st).1] :=
  fun _ _ => ⟨rfl, rfl, rfl⟩

/-- Claim C7: reassigning to fill or stroke the raw input currently
retained returns with the state completely unchanged, no reconversion,
no key invalidation and no notification. -/
theorem claim7_same_raw_skip :
    ∀ st : TextStyle,
      (∀ v, st._originalFill = some v → TextStyle.setFill v st = (st, [])) ∧
      (∀ w, st._originalStroke = some w → TextStyle.setStroke w st = (st, [])) := by
  intro st
  constructor
  · intro v h
    simp [TextStyle.setFill, h]
  · intro w h
    simp [TextStyle.setStroke, h]

/-- Claim C7 witness: the skip on the default instance, whose retained
raw fill is the string black and whose retained raw stroke is null. -/
theorem claim7_witness :
    TextStyle.setFill (FillInput.str "black") defaultStyleState = (defaultStyleState, []) ∧
    TextStyle.setStroke FillInput.nullv defaultStyleState = (defaultStyleState, []) :=
  ⟨(claim7_same_raw_skip defaultStyleState).1 (FillInput.str "black") (by decide),
   (claim7_same_raw_skip defaultStyleState).2 FillInput.nullv (by decide)⟩

/-- Claim C8: clone omits the trim property from the options it passes
to the constructor, so cloning a style whose trim is true yields a
clone with trim false and a different styleKey, although the doc of
clone promises an instance with the same values and the spec promises
an equal derived key. -/
theorem claim8_clone_trim_divergence :
    (styleOf (mkTextStyle { trim := some true }))._trim = true ∧
    (styleOf (TextStyle.clone (styleOf (mkTextStyle { trim := some true }))))._trim = false ∧
    (TextStyle.styleKey
        (styleOf (TextStyle.clone (styleOf (mkTextStyle { trim := some true }))))).1 ≠
      (TextStyle.styleKey (styleOf (mkTextStyle { trim := some true }))).1 := by
  refine ⟨by decide, by decide, ?_⟩
  rw [styleKey_of_none (by decide :
      (styleOf (TextStyle.clone (styleOf (mkTextStyle { trim := some true }))))._styleKey
        = none),
    styleKey_of_none (by decide :
      (styleOf (mkTextStyle { trim := some true }))._styleKey = none)]
  intro he
  obtain ⟨-, -, -, -, -, -, -, -, -, -, -, -, -, -, -, p, -, -, -⟩ :=
    generateTextStyleKey_sameProps he
  exact absurd p (by decide)

/-- Claim C9: destroy is idempotent: a second call with any options is
a safe no-op that leaves the state exactly as the first call left it
(fill, stroke, drop shadow null, both retained raw values null, the
observer list empty) and destroys no texture. -/
theorem claim9_destroy_idempotent :
    ∀ (o : DestroyOptions) (st : TextStyle),
      (TextStyle.destroy o (TextStyle.destroy o st).1).1 = (TextStyle.destroy o st).1 ∧
      (TextStyle.destroy o (TextStyle.destroy o st).1).2.1 = [] ∧
      ((TextStyle.destroy o st).1)._fill = none ∧
      ((TextStyle.destroy o st).1)._stroke = none ∧
      ((TextStyle.destroy o st).1)._dropShadow = none ∧
      ((TextStyle.destroy o st).1)._originalFill = some FillInput.nullv ∧
      ((TextStyle.destroy o st).1)._originalStroke = some FillInput.nullv ∧
      ((TextStyle.destroy o st).1).listeners = 0 := by
  intro o st
  refine ⟨rfl, ?_, rfl, rfl, rfl, rfl, rfl, rfl⟩
  cases o with
  | bool b => cases b <;> rfl
  | opts t ts =>
      cases t with
      | none => rfl
      | some b => cases b <;> rfl

/-- Claim C10: assigning the numeric value 0 to the fill setter retains
the raw value 0 (what the fill getter returns) but converts the paint
as if the string black had been assigned, so the descriptors produced
by assigning 0 and by assigning black are equal. -/
theorem claim10_fill_zero_black :
    ∀ st st2 : TextStyle,
      st._originalFill ≠ some (FillInput.num 0) →
      st2._originalFill ≠ some (FillInput.str "black") →
      (TextStyle.setFill (.num 0) st).1._originalFill = some (FillInput.num 0) ∧
      (TextStyle.setFill (.num 0) st).1._fill =
        convertFillInputToFillStyle (.str "black") GraphicsContext.defaultFillStyle ∧
      (TextStyle.setFill (.num 0) st).1._fill = (TextStyle.setFill (.str "black") st2).1._fill := by
  intro st st2 h1 h2
  have e1 : TextStyle.setFill (.num 0) st = TextStyle.update
      { st with _originalFill := some (.num 0), _fill := fillConvValue (.num 0) } := by
    simp only [TextStyle.setFill]
    rw [if_neg (fun hh => h1 hh)]
  have e2 : TextStyle.setFill (.str "black") st2 = TextStyle.update
      { st2 with _originalFill := some (.str "black"), _fill := fillConvValue (.str "black") } := by
    simp only [TextStyle.setFill]
    rw [if_neg (fun hh => h2 hh)]
  rw [e1, e2]
  exact ⟨rfl, rfl, rfl⟩

/-- Claim C10 witness: the equality of the two descriptors at concrete
states: the default instance (fill black) for the 0 assignment, and the
default instance reassigned to red for the black assignment. -/
theorem claim10_witness :
    (TextStyle.setFill (.num 0) defaultStyleState).1._originalFill =
      some (FillInput.num 0) ∧
    (TextStyle.setFill (.num 0) defaultStyleState).1._fill =
      convertFillInputToFillStyle (.str "black") GraphicsContext.defaultFillStyle ∧
    (TextStyle.setFill (.num 0) defaultStyleState).1._fill =
      (TextStyle.setFill (.str "black")
        (TextStyle.setFill (FillInput.str "red") defaultStyleState).1).1._fill :=
  claim10_fill_zero_black defaultStyleState
    (TextStyle.setFill (FillInput.str "red") defaultStyleState).1 (by decide) (by decide)
